import Mathlib

/-!
Verification development for the Turath MCP tool server
(`src/Tools/turathMCP/turath-mcp.py`): a shallow embedding of the
library-enrichment and synchronization layer, together with theorems that
settle the specification's claims about it.

Modelling conventions:
* Python/JSON dynamic values are embedded as the inductive type `Json`
  (numbers as `Int`; the spec'd behaviours exercise no floats).
* Python dicts are association lists (`Dict`) with Python's update
  semantics: assignment replaces the first binding in place, otherwise
  appends at the end.
* `json.dumps`/`json.loads` round-trip on the value level, so a serialized
  column is modelled by the `Json` value it denotes; the remote parser
  `json.loads` applied to embedded metadata strings is an explicit
  parameter `parse : String → Option Json` (`none` = `JSONDecodeError`).
* Fallible store access is an oracle: `none`/`.error` = `sqlite3.Error`.
* Uncaught Python exceptions are modelled with `Except String`.
-/

namespace TurathMCP

/-- JSON values as produced by `response.json()` / `json.loads`. -/
inductive Json where
  | null
  | bool (b : Bool)
  | num (n : Int)
  | str (s : String)
  | arr (elems : List Json)
  | obj (fields : List (String × Json))

/-- Python truthiness (`if x:`) for embedded JSON values. -/
def Json.truthy : Json → Bool
  | .null => false
  | .bool b => b
  | .num n => n != 0
  | .str s => s != ""
  | .arr xs => !xs.isEmpty
  | .obj kvs => !kvs.isEmpty

/-- A Python dict with string keys (e.g. a parsed API payload). -/
abbrev Dict := List (String × Json)

/-- Dict lookup: `d[k]` / `d.get(k)` yielding `none` when the key is absent. -/
def Dict.lookup : Dict → String → Option Json
  | [], _ => none
  | (k', v') :: rest, k => if k' = k then some v' else Dict.lookup rest k

/-- Key membership: Python's `k in d`. -/
def Dict.hasKey (d : Dict) (k : String) : Bool :=
  (d.lookup k).isSome

/-- Dict assignment `d[k] = v`: replaces the first binding of `k` in place,
otherwise appends the new binding at the end (Python insertion order). -/
def Dict.set : Dict → String → Json → Dict
  | [], k, v => [(k, v)]
  | (k', v') :: rest, k, v =>
    if k' = k then (k, v) :: rest else (k', v') :: Dict.set rest k v

/-- `dict.get(key)` on a JSON object; Python raises `AttributeError` on any
other value, which callers model separately. Missing keys give `None`. -/
def Json.get : Json → String → Option Json
  | .obj kvs, k => some ((Dict.lookup kvs k).getD .null)
  | _, _ => none

/-- `meta.get(k)` seen as a truthiness test (`if d.get(k):`), `false` when
the key is absent (Python `None`). -/
def Json.getTruthy (j : Json) (k : String) : Bool :=
  match j.get k with
  | some v => v.truthy
  | none => false

mutual

/-- Python `repr(...)` of a JSON value, used for values nested inside a
container rendered by `str`.  String escaping inside `repr` output is not
modelled (no spec'd scenario renders a container). -/
def pyRepr : Json → String
  | .null => "None"
  | .bool b => if b then "True" else "False"
  | .num n => toString n
  | .str s => "\x27" ++ s ++ "\x27"
  | .arr xs => "[" ++ pyReprElems xs ++ "]"
  | .obj kvs => "\x7b" ++ pyReprFields kvs ++ "\x7d"

def pyReprElems : List Json → String
  | [] => ""
  | [x] => pyRepr x
  | x :: xs => pyRepr x ++ ", " ++ pyReprElems xs

def pyReprFields : List (String × Json) → String
  | [] => ""
  | [kv] => "\x27" ++ kv.1 ++ "\x27: " ++ pyRepr kv.2
  | kv :: kvs => "\x27" ++ kv.1 ++ "\x27: " ++ pyRepr kv.2 ++ ", " ++ pyReprFields kvs

end

/-- Python `f"{j}"` (i.e. `str(j)`): like `repr` except that a top-level
string is rendered without quotes. -/
def pyStr : Json → String
  | .str s => s
  | j => pyRepr j

/-- A database row, as returned by `cursor.fetchall()` (a tuple of column
values; `NULL` is `Json.null`). -/
abbrev Row := List Json

/-- Column access `row[i]`; the SQL statements used here always return rows
of the statically known width, so the default is never read. -/
def Row.col (r : Row) (i : Nat) : Json :=
  r.getD i .null

/-! ## LocalStore Gateway: `_query_local_db_sync` (lines 17-33)

The helper's interaction with the SQLite library is modelled by a
`DbBehavior` describing which of the three fallible steps (connect,
execute+fetchall, commit) succeed; the run produces the returned value and
the sequence of successfully performed connection events. -/

/-- Connection-lifecycle events of one `_query_local_db_sync` invocation. -/
inductive DbEvent where
  | openE
  | execE
  | commitE
  | closeE
deriving DecidableEq, Repr

/-- How the SQLite layer behaves during one invocation: whether
`sqlite3.connect` succeeds, what `execute`+`fetchall` give back (`none` =
raises `sqlite3.Error`), and whether `commit` succeeds. -/
structure DbBehavior where
  connectOk : Bool
  execResult : Option (List Row)
  commitOk : Bool

/-- `_query_local_db_sync`: connect, execute one statement, fetch, commit,
return the rows; any `sqlite3.Error` is caught and turned into `none`; the
`finally` block closes the connection whenever one was opened. -/
def queryLocalDbSync (b : DbBehavior) : Option (List Row) × List DbEvent :=
  if b.connectOk then
    match b.execResult with
    | none => (none, [.openE, .closeE])
    | some rows =>
      if b.commitOk then (some rows, [.openE, .execE, .commitE, .closeE])
      else (none, [.openE, .execE, .closeE])
  else
    (none, [])

/-! ## RemoteCatalogClient outcomes (lines 120-139, 374-392)

The `httpx` call either yields a parsed JSON payload or raises one of the
three caught exception classes, each mapped to a structured error dict. -/

/-- The three failure classes caught around `http_client.get(...)`. -/
inductive FetchErr where
  | statusError (code : Nat) (details : String)
  | requestError (details : String)
  | unexpected (details : String)

/-- The `api_result` dict the except-blocks of `get_book_details` /
`get_author_bio` build for each failure class. -/
def FetchErr.toDict : FetchErr → Dict
  | .statusError code details =>
    [("error", .str ("API Error: " ++ toString code)), ("details", .str details)]
  | .requestError details =>
    [("error", .str "Request Error: Failed to connect to Turath API."),
     ("details", .str details)]
  | .unexpected details =>
    [("error", .str "An unexpected error occurred during API call."),
     ("details", .str details)]

/-! ## Local-store statements issued by the book/author tools -/

/-- The parameterized statements `get_book_details` / `get_author_bio` hand
to `query_local_db`, with their bound parameters. -/
inductive Query where
  | updatePdf (blob : Json) (bookId : Int)
  | clearPdf (bookId : Int)
  | selectBook (bookId : Int)
  | selectAuthor (authorId : Json)
  | selectCat (catId : Json)
  | selectAuthorBio (authorId : Int)

/-- Distinguishes the two `UPDATE books SET pdf_links = ..., has_pdf = ...`
reconcile statements from the enrichment `SELECT`s. -/
def Query.isReconcile : Query → Bool
  | .updatePdf _ _ => true
  | .clearPdf _ => true
  | _ => false

/-- An oracle for `query_local_db`: the rows a statement returns, or `none`
when the underlying `sqlite3` call failed (the helper then yields `None`). -/
abbrev DbOracle := Query → Option (List Row)

/-! ## SyncReconciler (lines 141-165) -/

/-- The reconcile writes issued after a successful fetch: when
`api_result.get("meta")` is a dict, inspect `meta.get("pdf_links")`; a dict
with truthy `files` and truthy `root` is stored verbatim with `has_pdf = 1`,
anything else clears the columns; when `meta` is absent or not a dict, no
write is issued at all. -/
def reconcileWrites (payload : Dict) (bookId : Int) : List Query :=
  match (payload.lookup "meta").getD .null with
  | .obj metaKvs =>
    match (Json.get (.obj metaKvs) "pdf_links").getD .null with
    | .obj plKvs =>
      if Json.getTruthy (.obj plKvs) "files" && Json.getTruthy (.obj plKvs) "root" then
        [.updatePdf (.obj plKvs) bookId]
      else
        [.clearPdf bookId]
    | _ => [.clearPdf bookId]
  | _ => []

/-! ## EnrichmentJoiner, single-book shape (lines 167-197) -/

/-- Lines 182-188: `if author_id:` look up the author row and, when one
came back, attach its name and death year. -/
def authorStep (d1 : Dict) (authorId : Json) (db : DbOracle) : Dict × List Query :=
  if authorId.truthy then
    match db (.selectAuthor authorId) with
    | some (arow :: _) =>
      ((d1.set "local_author_name" (arow.col 0)).set
        "local_author_death" (arow.col 1),
       [.selectAuthor authorId])
    | _ => (d1, [.selectAuthor authorId])
  else (d1, [])

/-- Lines 190-195: `if cat_id:` look up the category row and, when one came
back, attach its name. -/
def catStep (d2 : Dict) (catId : Json) (db : DbOracle) : Dict × List Query :=
  if catId.truthy then
    match db (.selectCat catId) with
    | some (crow :: _) =>
      (d2.set "local_category_name" (crow.col 0), [.selectCat catId])
    | _ => (d2, [.selectCat catId])
  else (d2, [])

/-- The local-enrichment phase of `get_book_details`: select the book row;
if found, attach the five `local_*` fields, then conditionally look up the
author and the category; otherwise attach `local_db_status`.  Returns the
annotated payload and the SELECT statements issued, in order. -/
def enrichBook (payload : Dict) (bookId : Int) (db : DbOracle) : Dict × List Query :=
  match db (.selectBook bookId) with
  | some (row :: _) =>
    let d1 :=
      ((((payload.set "local_book_name" (row.col 0)).set
          "local_pdf_links" (row.col 3)).set
          "local_info_long" (row.col 4)).set
          "local_printed" (row.col 5)).set
          "local_size_mb" (row.col 6)
    let step2 := authorStep d1 (row.col 1) db
    let step3 := catStep step2.1 (row.col 2) db
    (step3.1, .selectBook bookId :: (step2.2 ++ step3.2))
  | _ =>
    (payload.set "local_db_status" (.str "Book ID tidak ditemukan di DB lokal."),
     [.selectBook bookId])

/-- `get_book_details` (lines 107-199): the fetched-or-failed remote payload
is the input; returns the result dict and the full ordered list of
local-store statements issued.  A failed fetch yields the error dict and no
statement; a payload carrying a top-level `"error"` key skips both
reconciliation and enrichment. -/
def getBookDetails (fetch : Except FetchErr Dict) (bookId : Int) (db : DbOracle) :
    Dict × List Query :=
  match fetch with
  | .error e => (e.toDict, [])
  | .ok payload =>
    if payload.hasKey "error" then (payload, [])
    else
      let writes := reconcileWrites payload bookId
      let enriched := enrichBook payload bookId db
      (enriched.1, writes ++ enriched.2)

/-- `get_author_bio` (lines 367-409): same shape, a single author lookup. -/
def getAuthorBio (fetch : Except FetchErr Dict) (authorId : Int) (db : DbOracle) :
    Dict × List Query :=
  match fetch with
  | .error e => (e.toDict, [])
  | .ok payload =>
    if payload.hasKey "error" then (payload, [])
    else
      match db (.selectAuthorBio authorId) with
      | some (row :: _) =>
        (((payload.set "local_author_name" (row.col 0)).set
           "local_author_death" (row.col 1)).set
           "local_author_death_label" (row.col 2),
         [.selectAuthorBio authorId])
      | _ =>
        (payload.set "local_db_status" (.str "Author ID tidak ditemukan di DB lokal."),
         [.selectAuthorBio authorId])

/-! ## The `pdf_links`/`has_pdf` columns of one `books` row (§3 invariant) -/

/-- The two reconciled columns of a `books` row; the serialized `pdf_links`
column is modelled by the JSON value it denotes (`none` = SQL `NULL`). -/
structure PdfState where
  pdf_links : Option Json
  has_pdf : Int

/-- Effect of a statement on the reconciled columns of the addressed row:
both `UPDATE`s overwrite the pair in a single statement, `SELECT`s leave the
row unchanged. -/
def applyWrite : Query → PdfState → PdfState
  | .updatePdf blob _, _ => ⟨some blob, 1⟩
  | .clearPdf _, _ => ⟨none, 0⟩
  | _, s => s

/-- The claim's well-formedness of a stored `pdf_links` value: it is an
object whose `files` is a non-empty list and whose `root` is a non-empty
string. -/
def goodPdf (v : Json) : Bool :=
  match v.get "files", v.get "root" with
  | some (.arr files), some (.str root) => !files.isEmpty && root != ""
  | _, _ => false

/-- The §3/§8 invariant on one row: `has_pdf == true` iff `pdf_links`
parses to a non-empty `files` list and non-empty `root`. -/
def pdfInvariant (s : PdfState) : Bool :=
  (s.has_pdf == 1) == (match s.pdf_links with
                       | some v => goodPdf v
                       | none => false)

/-- Whether a reconcile write carries schema-conformant data: the stored
blob's `files` is a JSON array and its `root` a JSON string, as the remote
API contract (§6) documents. -/
def schemaConformant : Query → Bool
  | .updatePdf blob _ =>
    (match blob.get "files" with
     | some (.arr _) => true
     | _ => false) &&
    (match blob.get "root" with
     | some (.str _) => true
     | _ => false)
  | _ => true

/-! ## ReferenceComposer / batch EnrichmentJoiner (lines 412-543)

`_enrich_search_results_sync` runs over one shared connection; per item it
optionally performs the three-way join, annotates the item in place, and
composes `reference_info`.  The embedded metadata parser `json.loads` is the
explicit parameter `parse` (`none` = `JSONDecodeError`, which every call
site catches).  Python exceptions the source does **not** catch — `loads`
on a non-string (`TypeError`) and `.get` on a parsed non-dict
(`AttributeError`) — are modelled as `Except.error`. -/

/-- One `json.loads(meta_str)` + `md.get(key)` call site (the `vol`/`page`,
`book_name` and `author_name` sites): a parse failure is caught and acts as
"no value"; a non-string argument or a parsed non-dict raises. -/
def metaGetKey (parse : String → Option Json) (mv : Json) (key : String) :
    Except String Json :=
  match mv with
  | .str s =>
    match parse s with
    | some (.obj kvs) => .ok ((Dict.lookup kvs key).getD .null)
    | some _ => .error "AttributeError: object has no attribute get"
    | none => .ok .null
  | _ => .error "TypeError: the JSON object must be str, bytes or bytearray"

/-- The `page_id` call site (lines 513-522): identical except that a parsed
non-dict is guarded by `isinstance(..., dict)` instead of raising. -/
def metaGetPageId (parse : String → Option Json) (mv : Json) : Except String Json :=
  match mv with
  | .str s =>
    match parse s with
    | some (.obj kvs) => .ok ((Dict.lookup kvs "page_id").getD .null)
    | some _ => .ok .null
    | none => .ok .null
  | _ => .error "TypeError: the JSON object must be str, bytes or bytearray"

/-- Per-item annotation and reference composition (lines 426-536).
`queried = some r` means the item had a truthy `book_id` and the join
returned `r` (`none` = no row, Python `fetchone()` giving `None`);
`queried = none` means no lookup was performed (falsy `book_id`). -/
def processItem (parse : String → Option Json) (queried : Option (Option Row))
    (item : Dict) : Except String Dict := do
  let bid := (item.lookup "book_id").getD .null
  let lb := match queried with
            | some (some row) => row.col 0
            | _ => Json.null
  let la := match queried with
            | some (some row) => row.col 1
            | _ => Json.null
  let lc := match queried with
            | some (some row) => row.col 2
            | _ => Json.null
  let item1 : Dict :=
    match queried with
    | some (some row) =>
      ((((item.set "local_book_name" (row.col 0)).set
          "local_author_name" (row.col 1)).set
          "local_category_name" (row.col 2)).set
          "local_pdf_links" (row.col 3)).set
          "local_info_long" (row.col 4)
    | some none =>
      item.set "local_db_status"
        (.str ("Book ID " ++ pyStr bid ++ " not found locally."))
    | none => item
  let mv := (item.lookup "meta").getD .null
  let volPage ←
    if mv.truthy then do
      let v ← metaGetKey parse mv "vol"
      let p ← metaGetKey parse mv "page"
      pure (v, p)
    else pure (Json.null, Json.null)
  let kitab ←
    if lb.truthy then pure ["Kitab: " ++ pyStr lb]
    else if mv.truthy then do
      let bn ← metaGetKey parse mv "book_name"
      pure (if bn.truthy then ["Kitab: " ++ pyStr bn] else [])
    else pure []
  let penulis ←
    if la.truthy then pure ["Penulis: " ++ pyStr la]
    else if mv.truthy then do
      let an ← metaGetKey parse mv "author_name"
      pure (if an.truthy then ["Penulis: " ++ pyStr an] else [])
    else pure []
  let kategori := if lc.truthy then ["Kategori: " ++ pyStr lc] else []
  let jilid := if volPage.1.truthy then ["Jilid: " ++ pyStr volPage.1] else []
  let halaman := if volPage.2.truthy then ["Halaman: " ++ pyStr volPage.2] else []
  let pageId ←
    if mv.truthy then metaGetPageId parse mv
    else pure Json.null
  let link :=
    if bid.truthy then
      if pageId.truthy then
        ["Link: https://shamela.ws/book/" ++ pyStr bid ++ "/" ++ pyStr pageId]
      else
        ["Link: https://shamela.ws/book/" ++ pyStr bid]
    else []
  let parts := kitab ++ penulis ++ kategori ++ jilid ++ halaman ++ link
  let parts := if parts.isEmpty then ["Detail referensi tidak tersedia."] else parts
  pure (item1.set "reference_info"
    (.str ("Sumber: " ++ String.intercalate ", " parts)))

/-- Answers of the shared cursor to the i-th `cursor.execute` of the batch:
the joined row (or no row), or a raised `sqlite3.Error` with its message. -/
abbrev JoinOracle := Nat → Except String (Option Row)

/-- Outcome of the batch loop: `done` = the loop finished or was aborted by
a caught `sqlite3.Error` (carrying the error message returned to the
caller), together with the item list as mutated in place and the number of
successfully executed statements; `raised` = an uncaught Python exception
propagated out of the worker. -/
inductive BatchOut where
  | done (out : List Dict) (errMsg : Option String) (nExec : Nat)
  | raised (msg : String) (nExec : Nat)

/-- The `for item in data_list` loop of `_enrich_search_results_sync`:
items with a truthy `book_id` consume one `cursor.execute`; a store error
there aborts the loop with the current and all later items untouched. -/
def enrichList (parse : String → Option Json) (db : JoinOracle) :
    List Dict → Nat → BatchOut
  | [], k => .done [] none k
  | item :: rest, k =>
    let bid := (item.lookup "book_id").getD .null
    if bid.truthy then
      match db k with
      | .error msg => .done (item :: rest) (some msg) k
      | .ok joinRes =>
        match processItem parse (some joinRes) item with
        | .error msg => .raised msg (k + 1)
        | .ok item' =>
          match enrichList parse db rest (k + 1) with
          | .done out err n => .done (item' :: out) err n
          | .raised msg n => .raised msg n
    else
      match processItem parse none item with
      | .error msg => .raised msg k
      | .ok item' =>
        match enrichList parse db rest k with
        | .done out err n => .done (item' :: out) err n
        | .raised msg n => .raised msg n

/-- `_enrich_search_results_sync` (lines 412-543): open one connection for
the whole batch (`connect = some msg` models `sqlite3.connect` itself
raising), run the loop on the shared cursor, and close the connection in
the `finally` block whenever it was opened.  The second component is the
connection-event trace. -/
def enrichSearchResultsSync (parse : String → Option Json) (connect : Option String)
    (db : JoinOracle) (items : List Dict) : BatchOut × List DbEvent :=
  match connect with
  | some msg => (.done items (some msg) 0, [])
  | none =>
    match enrichList parse db items 0 with
    | .done out err n => (.done out err n, .openE :: (List.replicate n .execE ++ [.closeE]))
    | .raised msg n => (.raised msg n, .openE :: (List.replicate n .execE ++ [.closeE]))

/-- Lines 317-322 of `search_library`: a batch-level error message is
surfaced on the response as the `enrichment_error` field. -/
def attachEnrichmentError (resultJson : Dict) (err : Option String) : Dict :=
  match err with
  | some msg => resultJson.set "enrichment_error" (.str msg)
  | none => resultJson

/-! ## `get_filter_ids` (lines 52-103)

The two `SELECT id FROM ... WHERE name LIKE ?` statements are modelled over
the table contents, with SQLite's documented default `LIKE` semantics:
`%`/`_` wildcards and case-insensitive comparison of ASCII letters. -/

/-- ASCII-only lower casing, as SQLite's default `LIKE` applies. -/
def lowerAscii (c : Char) : Char :=
  if 'A' ≤ c && c ≤ 'Z' then Char.ofNat (c.toNat + 32) else c

/-- Fuel-bounded `LIKE` pattern matching; every step shortens the pattern
or the text, so fuel `|pattern| + |text| + 1` always suffices. -/
def likeFuel : Nat → List Char → List Char → Bool
  | 0, _, _ => false
  | _ + 1, [], s => s.isEmpty
  | f + 1, p :: ps, s =>
    if p = '%' then
      likeFuel f ps s ||
        (match s with
         | [] => false
         | _ :: s' => likeFuel f (p :: ps) s')
    else
      match s with
      | [] => false
      | c :: s' => (p = '_' || lowerAscii p = lowerAscii c) && likeFuel f ps s'

/-- SQLite's default `LIKE` operator (no `ESCAPE` clause). -/
def sqliteLike (pattern text : String) : Bool :=
  likeFuel (pattern.length + text.length + 1) pattern.toList text.toList

/-- Literal (case-sensitive) occurrence of `needle` as a prefix. -/
def startsWithChars : List Char → List Char → Bool
  | [], _ => true
  | _ :: _, [] => false
  | a :: as, b :: bs => a = b && startsWithChars as bs

/-- Literal occurrence of `needle` anywhere inside the character list: the
claim's notion of "the supplied string occurs anywhere inside the name". -/
def occursChars (needle : List Char) : List Char → Bool
  | [] => needle.isEmpty
  | c :: cs => startsWithChars needle (c :: cs) || occursChars needle cs

/-- Literal substring occurrence on strings. -/
def occursInStr (needle hay : String) : Bool :=
  occursChars needle.toList hay.toList

/-- The rows `SELECT id FROM t WHERE name LIKE ?` returns for the parameter
`"%" ++ name ++ "%"`, in table (row) order. -/
def likeRows (table : List (Int × String)) (name : String) : List (Int × String) :=
  table.filter (fun r => sqliteLike ("%" ++ name ++ "%") r.2)

/-- `",".join(str(row[0]) for row in rows)`. -/
def joinIds (rows : List (Int × String)) : String :=
  String.intercalate "," (rows.map (fun r => toString r.1))

/-- `get_filter_ids` (lines 52-103) over the `cats`/`authors` table
contents; a supplied falsy (empty) name skips its query, a filter with no
matching rows contributes nothing, and if neither filter contributed the
`message` dict is returned instead. -/
def getFilterIds (cats authors : List (Int × String))
    (categoryName authorName : Option String) : Dict :=
  let base : Dict := [("category_ids", Json.null), ("author_ids", Json.null)]
  let catStep : Dict × Bool :=
    match categoryName with
    | some c =>
      if c != "" then
        let rows := likeRows cats c
        if !rows.isEmpty then (base.set "category_ids" (.str (joinIds rows)), true)
        else (base, false)
      else (base, false)
    | none => (base, false)
  let authStep : Dict × Bool :=
    match authorName with
    | some a =>
      if a != "" then
        let rows := likeRows authors a
        if !rows.isEmpty then (catStep.1.set "author_ids" (.str (joinIds rows)), true)
        else (catStep.1, false)
      else (catStep.1, false)
    | none => (catStep.1, false)
  if catStep.2 || authStep.2 then authStep.1
  else
    [("message",
      .str "Tidak ada ID yang ditemukan untuk nama kategori atau penulis yang diberikan.")]

/-- `true` iff the value is a Python dict (`isinstance(x, dict)`). -/
def Json.isObj : Json → Bool
  | .obj _ => true
  | _ => false

/-! ## Dict lemmas -/

theorem Dict.lookup_set_self (d : Dict) (k : String) (v : Json) :
    (d.set k v).lookup k = some v := by
  induction d with
  | nil => simp [Dict.set, Dict.lookup]
  | cons kv rest ih =>
    by_cases h : kv.1 = k
    · simp [Dict.set, Dict.lookup, h]
    · simp [Dict.set, Dict.lookup, h, ih]

theorem Dict.lookup_set_ne (d : Dict) {k k' : String} (v : Json) (h : k' ≠ k) :
    (d.set k v).lookup k' = d.lookup k' := by
  induction d with
  | nil => simp [Dict.set, Dict.lookup, Ne.symm h]
  | cons kv rest ih =>
    obtain ⟨k0, v0⟩ := kv
    by_cases h1 : k0 = k
    · subst h1
      simp [Dict.set, Dict.lookup, Ne.symm h]
    · by_cases h2 : k0 = k'
      · subst h2
        simp [Dict.set, Dict.lookup, h1]
      · simp [Dict.set, Dict.lookup, h1, h2, ih]

theorem Dict.hasKey_set_ne (d : Dict) {k k' : String} (v : Json) (h : k' ≠ k) :
    (d.set k v).hasKey k' = d.hasKey k' := by
  simp [Dict.hasKey, Dict.lookup_set_ne d v h]

/-! ## Claim theorems -/

/-- C7: every invocation of `_query_local_db_sync` — on a successful run the
event sequence is exactly connect, one execute, commit, close, and the rows
are the fetched ones; at most one statement is ever executed; whenever a
connection was opened the last event is its close (every exit path,
including the exceptional ones); and on any store-level failure the helper
returns the explicit `None` signal instead of propagating an exception. -/
theorem queryHelper_lifecycle (b : DbBehavior) :
    (∀ rows, (queryLocalDbSync b).1 = some rows →
      (queryLocalDbSync b).2 = [.openE, .execE, .commitE, .closeE] ∧
      b.execResult = some rows) ∧
    (queryLocalDbSync b).2.count .execE ≤ 1 ∧
    (DbEvent.openE ∈ (queryLocalDbSync b).2 →
      (queryLocalDbSync b).2.getLast? = some .closeE) ∧
    ((b.connectOk = false ∨ b.execResult = none ∨ b.commitOk = false) →
      (queryLocalDbSync b).1 = none) := by
  obtain ⟨co, er, cm⟩ := b
  cases co <;> rcases er with _ | rows <;> cases cm <;>
    simp [queryLocalDbSync]

/-- Witness for C7: a run whose execute step raises returns `None`, with
the connection opened and closed around it. -/
theorem queryHelper_lifecycle_witness :
    (queryLocalDbSync ⟨true, none, true⟩).1 = none ∧
    (queryLocalDbSync ⟨true, none, true⟩).2.getLast? = some .closeE :=
  ⟨(queryHelper_lifecycle ⟨true, none, true⟩).2.2.2 (Or.inr (Or.inl rfl)),
   (queryHelper_lifecycle ⟨true, none, true⟩).2.2.1 (by decide)⟩

/-- C5: when the remote `getBook` call fails with any of the three caught
failure classes, `get_book_details` issues no local-store statement at all
and returns the structured error dict, which carries both the `error` and
the `details` keys. -/
theorem remoteError_shortCircuits (e : FetchErr) (bookId : Int) (db : DbOracle) :
    getBookDetails (.error e) bookId db = (e.toDict, []) ∧
    (FetchErr.toDict e).hasKey "error" = true ∧
    (FetchErr.toDict e).hasKey "details" = true := by
  refine ⟨rfl, ?_, ?_⟩ <;> cases e <;> rfl

/-- Witness for C5 at a concrete 500-status failure. -/
theorem remoteError_shortCircuits_witness :
    getBookDetails (.error (.statusError 500 "boom")) 7 (fun _ => none) =
      ((FetchErr.statusError 500 "boom").toDict, []) ∧
    (FetchErr.toDict (.statusError 500 "boom")).hasKey "error" = true ∧
    (FetchErr.toDict (.statusError 500 "boom")).hasKey "details" = true :=
  remoteError_shortCircuits (.statusError 500 "boom") 7 (fun _ => none)

/-- C10: both `get_book_details` and `get_author_bio` decide remote success
by testing for a top-level `"error"` key in the parsed payload, so a 2xx
response whose body happens to contain such a key skips reconciliation and
enrichment entirely and is returned unchanged. -/
theorem errorKey_skips_local (p : Dict) (bookId authorId : Int)
    (db db' : DbOracle) (h : p.hasKey "error" = true) :
    getBookDetails (.ok p) bookId db = (p, []) ∧
    getAuthorBio (.ok p) authorId db' = (p, []) := by
  constructor <;> simp [getBookDetails, getAuthorBio, h]

/-- Witness for C10: a payload whose own body carries an `error` key. -/
theorem errorKey_skips_local_witness :
    getBookDetails (.ok [("error", .str "remote says no"), ("id", .num 4)]) 4
        (fun _ => none) =
      ([("error", .str "remote says no"), ("id", .num 4)], []) ∧
    getAuthorBio (.ok [("error", .str "remote says no"), ("id", .num 4)]) 4
        (fun _ => none) =
      ([("error", .str "remote says no"), ("id", .num 4)], []) :=
  errorKey_skips_local [("error", .str "remote says no"), ("id", .num 4)] 4 4
    (fun _ => none) (fun _ => none) rfl

/-- C6: if the remote fetch succeeded (payload without a top-level `error`
key) while every local-store query fails, `get_book_details` returns the
remote payload annotated only with `local_db_status`; all original payload
fields are preserved and the result is never an overall error object. -/
theorem localFailure_degrades (p : Dict) (bookId : Int) (db : DbOracle)
    (h : p.hasKey "error" = false) (hdb : ∀ q, db q = none) :
    (getBookDetails (.ok p) bookId db).1 =
      p.set "local_db_status" (.str "Book ID tidak ditemukan di DB lokal.") ∧
    (getBookDetails (.ok p) bookId db).1.lookup "local_db_status" =
      some (.str "Book ID tidak ditemukan di DB lokal.") ∧
    (∀ k, k ≠ "local_db_status" →
      (getBookDetails (.ok p) bookId db).1.lookup k = p.lookup k) ∧
    (getBookDetails (.ok p) bookId db).1.hasKey "error" = false := by
  have h1 : (getBookDetails (.ok p) bookId db).1 =
      p.set "local_db_status" (.str "Book ID tidak ditemukan di DB lokal.") := by
    simp [getBookDetails, h, enrichBook, hdb]
  refine ⟨h1, ?_, ?_, ?_⟩
  · rw [h1, Dict.lookup_set_self]
  · intro k hk
    rw [h1, Dict.lookup_set_ne _ _ hk]
  · rw [h1, Dict.hasKey_set_ne _ _ (by decide)]
    exact h

/-- Witness for C6 at a concrete payload and the everywhere-failing store. -/
theorem localFailure_degrades_witness :
    (getBookDetails (.ok [("id", .num 3), ("name", .str "kitab")]) 3
        (fun _ => none)).1 =
      Dict.set [("id", .num 3), ("name", .str "kitab")] "local_db_status"
        (.str "Book ID tidak ditemukan di DB lokal.") ∧
    (getBookDetails (.ok [("id", .num 3), ("name", .str "kitab")]) 3
        (fun _ => none)).1.hasKey "error" = false :=
  ⟨(localFailure_degrades [("id", .num 3), ("name", .str "kitab")] 3
      (fun _ => none) rfl (fun _ => rfl)).1,
   (localFailure_degrades [("id", .num 3), ("name", .str "kitab")] 3
      (fun _ => none) rfl (fun _ => rfl)).2.2.2⟩

theorem authorStep_queries (d1 : Dict) (a : Json) (db : DbOracle) :
    (authorStep d1 a db).2.filter Query.isReconcile = [] := by
  unfold authorStep
  by_cases h : a.truthy
  · simp only [if_pos h]
    rcases db (.selectAuthor a) with _ | ⟨_ | ⟨arow, arest⟩⟩ <;>
      simp [Query.isReconcile]
  · simp [if_neg h]

theorem catStep_queries (d2 : Dict) (c : Json) (db : DbOracle) :
    (catStep d2 c db).2.filter Query.isReconcile = [] := by
  unfold catStep
  by_cases h : c.truthy
  · simp only [if_pos h]
    rcases db (.selectCat c) with _ | ⟨_ | ⟨crow, crest⟩⟩ <;>
      simp [Query.isReconcile]
  · simp [if_neg h]

theorem enrichBook_queries (p : Dict) (bookId : Int) (db : DbOracle) :
    (enrichBook p bookId db).2.filter Query.isReconcile = [] := by
  unfold enrichBook
  rcases db (.selectBook bookId) with _ | ⟨_ | ⟨row, rest⟩⟩
  · simp [Query.isReconcile]
  · simp [Query.isReconcile]
  · simp [Query.isReconcile, List.filter_append, authorStep_queries, catStep_queries]

theorem reconcileWrites_filter (p : Dict) (bookId : Int) :
    (reconcileWrites p bookId).filter Query.isReconcile = reconcileWrites p bookId := by
  unfold reconcileWrites
  split
  · split
    · split <;> simp [Query.isReconcile]
    · simp [Query.isReconcile]
  · simp

theorem getBook_trace (p : Dict) (bookId : Int) (db : DbOracle)
    (h : p.hasKey "error" = false) :
    (getBookDetails (.ok p) bookId db).2 =
      reconcileWrites p bookId ++ (enrichBook p bookId db).2 := by
  simp [getBookDetails, h]

/-- C1 counterexample: a successful fetch whose payload carries no `meta`
object issues **no** reconcile write at all (the statement list of the run
contains zero `UPDATE`s), refuting "exactly one reconcile write is issued
... including responses whose meta object is absent or not an object". -/
theorem reconcile_unconditional_counterexample :
    (getBookDetails (.ok [("id", .num 9)]) 9 (fun _ => none)).2.filter
        Query.isReconcile = [] ∧
    ¬(((getBookDetails (.ok [("id", .num 9)]) 9 (fun _ => none)).2.filter
        Query.isReconcile).length = 1) := by
  constructor
  · rfl
  · decide

/-- C1 (amended): for every successful fetch whose payload lacks a
top-level `error` key, the reconcile writes issued are exactly
`reconcileWrites`; when the payload's `meta` value is an object there is
exactly one such write — storing the `pdf_links` blob with `has_pdf = 1`
when that blob is a dict with truthy `files` and truthy `root`, and the
`NULL`/`has_pdf = 0` write otherwise — and when `meta` is absent or not an
object, no reconcile write is issued. -/
theorem reconcile_write_per_fetch (p : Dict) (bookId : Int) (db : DbOracle)
    (h : p.hasKey "error" = false) :
    (getBookDetails (.ok p) bookId db).2.filter Query.isReconcile =
      reconcileWrites p bookId ∧
    (((p.lookup "meta").getD .null).isObj = false →
      reconcileWrites p bookId = []) ∧
    (∀ metaKvs, (p.lookup "meta").getD .null = .obj metaKvs →
      ∀ pl, (Json.get (.obj metaKvs) "pdf_links").getD .null = pl →
        ((pl.isObj && pl.getTruthy "files" && pl.getTruthy "root") = true →
          reconcileWrites p bookId = [.updatePdf pl bookId]) ∧
        ((pl.isObj && pl.getTruthy "files" && pl.getTruthy "root") = false →
          reconcileWrites p bookId = [.clearPdf bookId])) := by
  refine ⟨?_, ?_, ?_⟩
  · rw [getBook_trace p bookId db h, List.filter_append, reconcileWrites_filter,
      enrichBook_queries, List.append_nil]
  · intro hobj
    unfold reconcileWrites
    cases hm : (p.lookup "meta").getD .null <;> simp_all [Json.isObj]
  · intro metaKvs hm pl hpl
    constructor
    · intro hc
      unfold reconcileWrites
      rw [hm]
      dsimp only
      rw [hpl]
      cases pl <;> simp_all [Json.isObj]
    · intro hc
      unfold reconcileWrites
      rw [hm]
      dsimp only
      rw [hpl]
      cases pl <;> simp_all [Json.isObj]

/-- Witness for C1 (amended): the Scenario-A payload issues exactly the
`has_pdf = 1` write for its valid `pdf_links` blob. -/
theorem reconcile_write_per_fetch_witness :
    (getBookDetails
        (.ok [("id", .num 23622),
              ("meta", .obj [("pdf_links",
                .obj [("files", .arr [.str "mnaia.pdf"]),
                      ("root", .str "elmQ")])])])
        23622 (fun _ => none)).2.filter Query.isReconcile =
      reconcileWrites
        [("id", .num 23622),
         ("meta", .obj [("pdf_links",
           .obj [("files", .arr [.str "mnaia.pdf"]),
                 ("root", .str "elmQ")])])] 23622 ∧
    reconcileWrites
        [("id", .num 23622),
         ("meta", .obj [("pdf_links",
           .obj [("files", .arr [.str "mnaia.pdf"]),
                 ("root", .str "elmQ")])])] 23622 =
      [.updatePdf (.obj [("files", .arr [.str "mnaia.pdf"]),
                         ("root", .str "elmQ")]) 23622] :=
  ⟨(reconcile_write_per_fetch
      [("id", .num 23622),
       ("meta", .obj [("pdf_links",
         .obj [("files", .arr [.str "mnaia.pdf"]),
               ("root", .str "elmQ")])])] 23622 (fun _ => none) rfl).1,
   (((reconcile_write_per_fetch
        [("id", .num 23622),
         ("meta", .obj [("pdf_links",
           .obj [("files", .arr [.str "mnaia.pdf"]),
                 ("root", .str "elmQ")])])] 23622 (fun _ => none) rfl).2.2
      _ rfl _ rfl).1 rfl)⟩

theorem reconcileWrites_mem (p : Dict) (bookId : Int) (w : Query)
    (hw : w ∈ reconcileWrites p bookId) :
    w = .clearPdf bookId ∨
    ∃ pl, w = .updatePdf pl bookId ∧ pl.isObj = true ∧
      pl.getTruthy "files" = true ∧ pl.getTruthy "root" = true := by
  unfold reconcileWrites at hw
  split at hw
  · split at hw
    · split at hw
      · rename_i hcond
        right
        simp only [Bool.and_eq_true] at hcond
        exact ⟨_, List.mem_singleton.mp hw, rfl, hcond.1, hcond.2⟩
      · exact Or.inl (List.mem_singleton.mp hw)
    · exact Or.inl (List.mem_singleton.mp hw)
  · simp at hw

/-- C2 (amended): every reconcile write issued by `get_book_details` whose
stored blob is schema-conformant (`files` a JSON array, `root` a JSON
string, as the remote contract documents) preserves the §3 invariant on the
addressed row — it stores a blob with a non-empty `files` list and
non-empty `root` together with `has_pdf = 1`, or `NULL` together with
`has_pdf = 0`, in one statement.  (Without the schema hypothesis the code
accepts any truthy `files`/`root`; see the counterexample.) -/
theorem reconcile_preserves_invariant (p : Dict) (bookId : Int) (db : DbOracle)
    (s : PdfState) (w : Query) (_hs : pdfInvariant s = true)
    (hw : w ∈ (getBookDetails (.ok p) bookId db).2)
    (hrec : w.isReconcile = true)
    (hschema : schemaConformant w = true) :
    pdfInvariant (applyWrite w s) = true := by
  by_cases herr : p.hasKey "error" = true
  · simp [getBookDetails, herr] at hw
  · have herr' : p.hasKey "error" = false := by
      cases hh : p.hasKey "error"
      · rfl
      · exact absurd hh herr
    rw [getBook_trace p bookId db herr'] at hw
    rcases List.mem_append.mp hw with hw1 | hw2
    · rcases reconcileWrites_mem p bookId w hw1 with rfl | ⟨pl, rfl, hobj, hf, hr⟩
      · simp [applyWrite, pdfInvariant]
      · cases pl with
        | obj plKvs =>
          simp only [schemaConformant, Json.get, Bool.and_eq_true] at hschema
          obtain ⟨hxf, hxr⟩ := hschema
          rcases hfv : (Dict.lookup plKvs "files").getD .null with _ | b | n | st | fs | o <;>
            rw [hfv] at hxf <;> simp at hxf
          rcases hrv : (Dict.lookup plKvs "root").getD .null with _ | b | n | rt | xs | o <;>
            rw [hrv] at hxr <;> simp at hxr
          simp only [Json.getTruthy, Json.get, hfv, hrv, Json.truthy] at hf hr
          simp [applyWrite, pdfInvariant, goodPdf, Json.get, hfv, hrv, hf, hr]
        | null => simp [Json.isObj] at hobj
        | bool b => simp [Json.isObj] at hobj
        | num n => simp [Json.isObj] at hobj
        | str s => simp [Json.isObj] at hobj
        | arr xs => simp [Json.isObj] at hobj
    · have hmem : w ∈ (enrichBook p bookId db).2.filter Query.isReconcile :=
        List.mem_filter.mpr ⟨hw2, hrec⟩
      rw [enrichBook_queries] at hmem
      simp at hmem

/-- C2 counterexample: a successful fetch whose `pdf_links` has a truthy
but non-list `files` (here the string `"x"`) makes the code issue the
`has_pdf = 1` write storing that blob; applied to a row that satisfies the
invariant, the resulting row violates it (`has_pdf = 1` while `pdf_links`
does not parse to a non-empty `files` list). -/
theorem invariant_preservation_counterexample :
    pdfInvariant ⟨none, 0⟩ = true ∧
    (getBookDetails
        (.ok [("meta", .obj [("pdf_links",
          .obj [("files", .str "x"), ("root", .str "r")])])]) 5
        (fun _ => none)).2.filter Query.isReconcile =
      [.updatePdf (.obj [("files", .str "x"), ("root", .str "r")]) 5] ∧
    pdfInvariant
      (applyWrite (.updatePdf (.obj [("files", .str "x"), ("root", .str "r")]) 5)
        ⟨none, 0⟩) = false :=
  ⟨rfl, rfl, rfl⟩

/-- Witness for C2 (amended): a schema-conformant write issued by a
concrete run preserves the invariant. -/
theorem reconcile_preserves_invariant_witness :
    pdfInvariant
      (applyWrite
        (.updatePdf (.obj [("files", .arr [.str "a.pdf"]), ("root", .str "dir")]) 3)
        ⟨none, 0⟩) = true :=
  reconcile_preserves_invariant
    [("meta", .obj [("pdf_links",
      .obj [("files", .arr [.str "a.pdf"]), ("root", .str "dir")])])]
    3 (fun _ => none) ⟨none, 0⟩
    (.updatePdf (.obj [("files", .arr [.str "a.pdf"]), ("root", .str "dir")]) 3)
    rfl (List.Mem.head _) rfl rfl

@[simp] theorem Json.truthy_null : Json.truthy .null = false := rfl

@[simp] theorem Json.truthy_str (s : String) : Json.truthy (.str s) = (s != "") := rfl

@[simp] theorem intercalateSingleton (sep s : String) :
    sep.intercalate [s] = s := rfl

@[simp] theorem exceptBind_ok {e a b : Type} (x : a) (f : a → Except e b) :
    (Except.ok x : Except e a) >>= f = f x := rfl

theorem composer_unparseable (parse : String → Option Json) (item : Dict)
    (ms : String) (hm : item.lookup "meta" = some (.str ms)) (hms : ms ≠ "")
    (hp : parse ms = none) (b : Json) (hb : item.lookup "book_id" = some b)
    (hbt : b.truthy = true) :
    processItem parse (some none) item =
      .ok ((item.set "local_db_status"
            (.str ("Book ID " ++ pyStr b ++ " not found locally."))).set
          "reference_info"
          (.str ("Sumber: Link: https://shamela.ws/book/" ++ pyStr b))) := by
  simp [processItem, hm, hb, hbt, hms, hp, metaGetKey, metaGetPageId]
  rfl

theorem composer_unparseable_nobook (parse : String → Option Json) (item : Dict)
    (ms : String) (hm : item.lookup "meta" = some (.str ms)) (hms : ms ≠ "")
    (hp : parse ms = none)
    (hb : ((item.lookup "book_id").getD .null).truthy = false) :
    processItem parse none item =
      .ok (item.set "reference_info"
          (.str "Sumber: Detail referensi tidak tersedia.")) := by
  simp [processItem, hm, hb, hms, hp, metaGetKey, metaGetPageId]

/-- C3 counterexample: an item with `book_id = 7`, no local row and
unparseable `meta` gets `reference_info = "Sumber: Link: <base>/book/7"`;
the fixed placeholder does **not** occur anywhere in that output, refuting
"the placeholder appears in the output even when a link part was
constructed". -/
theorem placeholder_with_link_counterexample :
    ((processItem (fun _ => none) (some none)
        [("book_id", .num 7), ("meta", .str "oops")]).toOption.bind
      (fun d => d.lookup "reference_info")) =
      some (.str "Sumber: Link: https://shamela.ws/book/7") ∧
    occursInStr "Detail referensi tidak tersedia."
      "Sumber: Link: https://shamela.ws/book/7" = false :=
  ⟨rfl, rfl⟩

/-- C3 (amended): for a search-result item whose `meta` blob fails to
parse, the composer never raises (it returns `.ok`); with a truthy
`book_id` and no matching local row the reference string is the book-level
link alone, and with a falsy/absent `book_id` it is the fixed placeholder
alone — the placeholder is emitted only when no part at all was built. -/
theorem composer_lossy_recovery (parse : String → Option Json) (item : Dict)
    (ms : String) (hm : item.lookup "meta" = some (.str ms)) (hms : ms ≠ "")
    (hp : parse ms = none) :
    (∀ b, item.lookup "book_id" = some b → b.truthy = true →
      processItem parse (some none) item =
        .ok ((item.set "local_db_status"
              (.str ("Book ID " ++ pyStr b ++ " not found locally."))).set
            "reference_info"
            (.str ("Sumber: Link: https://shamela.ws/book/" ++ pyStr b)))) ∧
    (((item.lookup "book_id").getD .null).truthy = false →
      processItem parse none item =
        .ok (item.set "reference_info"
            (.str "Sumber: Detail referensi tidak tersedia."))) :=
  ⟨fun b hb hbt => composer_unparseable parse item ms hm hms hp b hb hbt,
   fun hb => composer_unparseable_nobook parse item ms hm hms hp hb⟩

/-- Witness for C3 (amended) at a concrete item and failing parser. -/
theorem composer_lossy_recovery_witness :
    processItem (fun _ => none) (some none)
        [("book_id", .num 7), ("meta", .str "oops")] =
      .ok ((Dict.set [("book_id", .num 7), ("meta", .str "oops")]
            "local_db_status"
            (.str ("Book ID " ++ pyStr (.num 7) ++ " not found locally."))).set
          "reference_info"
          (.str ("Sumber: Link: https://shamela.ws/book/" ++ pyStr (.num 7)))) :=
  (composer_lossy_recovery (fun _ => none)
      [("book_id", .num 7), ("meta", .str "oops")] "oops" rfl (by decide) rfl).1
    (.num 7) rfl rfl

/-- C4: Scenario D — item with `book_id = 7`, a local join row named `"X"`
with no author/category, and `meta` parsing to `vol = 2`, `page = 15`,
`page_id = 99` composes exactly
`"Sumber: Kitab: X, Jilid: 2, Halaman: 15, Link: https://shamela.ws/book/7/99"`;
the Penulis/Kategori parts are omitted and the parts appear in the fixed
order Kitab, Jilid, Halaman, Link, comma-joined after `"Sumber: "`. -/
theorem scenarioD_reference (parse : String → Option Json) (ms : String)
    (hms : ms ≠ "")
    (hp : parse ms =
      some (.obj [("vol", .num 2), ("page", .num 15), ("page_id", .num 99)])) :
    (processItem parse (some (some [.str "X", .null, .null, .null, .null]))
        [("book_id", .num 7), ("meta", .str ms)]).toOption.bind
      (fun d => d.lookup "reference_info") =
      some (.str
        "Sumber: Kitab: X, Jilid: 2, Halaman: 15, Link: https://shamela.ws/book/7/99") := by
  simp [processItem, metaGetKey, metaGetPageId, hp, hms, Dict.lookup,
    Row.col, Json.truthy, Dict.lookup_set_self]
  rfl

/-- Witness for C4 at a concrete meta string and parser. -/
theorem scenarioD_reference_witness :
    (processItem
        (fun _ => some (.obj [("vol", .num 2), ("page", .num 15), ("page_id", .num 99)]))
        (some (some [.str "X", .null, .null, .null, .null]))
        [("book_id", .num 7), ("meta", .str "m")]).toOption.bind
      (fun d => d.lookup "reference_info") =
      some (.str
        "Sumber: Kitab: X, Jilid: 2, Halaman: 15, Link: https://shamela.ws/book/7/99") :=
  scenarioD_reference
    (fun _ => some (.obj [("vol", .num 2), ("page", .num 15), ("page_id", .num 99)]))
    "m" (by decide) rfl

theorem enrichList_abort (parse : String → Option Json) (db : JoinOracle) :
    ∀ (items : List Dict) (k : Nat) (out : List Dict) (m : String) (n : Nat),
      enrichList parse db items k = .done out (some m) n →
      ∃ i, i ≤ items.length ∧ ∃ pre n',
        enrichList parse db (items.take i) k = .done pre none n' ∧
        out = pre ++ items.drop i := by
  intro items
  induction items with
  | nil =>
    intro k out m n h
    simp [enrichList] at h
  | cons item rest ih =>
    intro k out m n h
    rw [enrichList] at h
    by_cases hbid : ((item.lookup "book_id").getD .null).truthy
    · rw [if_pos hbid] at h
      cases hdb : db k with
      | error msg =>
        simp only [hdb, BatchOut.done.injEq] at h
        obtain ⟨ho, _hm, _hn⟩ := h
        refine ⟨0, Nat.zero_le _, [], k, ?_, ?_⟩
        · simp [enrichList]
        · simpa using ho.symm
      | ok joinRes =>
        simp only [hdb] at h
        cases hpi : processItem parse (some joinRes) item with
        | error msg =>
          simp only [hpi] at h
          exact BatchOut.noConfusion h
        | ok item2 =>
          simp only [hpi] at h
          cases hrec : enrichList parse db rest (k + 1) with
          | done out2 err2 n2 =>
            simp only [hrec, BatchOut.done.injEq] at h
            obtain ⟨ho, herr, hn⟩ := h
            obtain ⟨i, hi, pre, n3, hpre, hout⟩ :=
              ih (k + 1) out2 m n2 (by rw [hrec, herr])
            refine ⟨i + 1, Nat.succ_le_succ hi, item2 :: pre, n3, ?_, ?_⟩
            · rw [List.take_succ_cons, enrichList]
              simp only [if_pos hbid, hdb, hpi, hpre]
            · rw [← ho, hout]
              rfl
          | raised ms2 n2 =>
            simp only [hrec] at h
            exact BatchOut.noConfusion h
    · rw [if_neg hbid] at h
      cases hpi : processItem parse none item with
      | error msg =>
        simp only [hpi] at h
        exact BatchOut.noConfusion h
      | ok item2 =>
        simp only [hpi] at h
        cases hrec : enrichList parse db rest k with
        | done out2 err2 n2 =>
          simp only [hrec, BatchOut.done.injEq] at h
          obtain ⟨ho, herr, hn⟩ := h
          obtain ⟨i, hi, pre, n3, hpre, hout⟩ :=
            ih k out2 m n2 (by rw [hrec, herr])
          refine ⟨i + 1, Nat.succ_le_succ hi, item2 :: pre, n3, ?_, ?_⟩
          · rw [List.take_succ_cons, enrichList]
            simp only [if_neg hbid, hpi, hpre]
          · rw [← ho, hout]
            rfl
        | raised ms2 n2 =>
          simp only [hrec] at h
          exact BatchOut.noConfusion h

/-- C8: when a store-level error aborts the batch at some item, the batch
ran on one single connection (exactly one open and one close event, the
close last, i.e. the `finally` block still closes it), the items before the
failure point keep their in-place annotations while the failing item and
all later ones are untouched, and the single error message is surfaced on
the search response as `enrichment_error`. -/
theorem batch_single_connection_abort (parse : String → Option Json)
    (db : JoinOracle) (items out : List Dict) (m : String) (n : Nat)
    (h : enrichList parse db items 0 = .done out (some m) n) :
    (enrichSearchResultsSync parse none db items).1 = .done out (some m) n ∧
    (enrichSearchResultsSync parse none db items).2.count DbEvent.openE = 1 ∧
    (enrichSearchResultsSync parse none db items).2.count DbEvent.closeE = 1 ∧
    (enrichSearchResultsSync parse none db items).2.getLast? = some DbEvent.closeE ∧
    (∃ i, i ≤ items.length ∧ ∃ pre n',
      enrichList parse db (items.take i) 0 = .done pre none n' ∧
      out = pre ++ items.drop i) ∧
    (∀ rj : Dict, (attachEnrichmentError rj (some m)).lookup "enrichment_error" =
      some (.str m)) := by
  have htr : (enrichSearchResultsSync parse none db items).2 =
      DbEvent.openE :: (List.replicate n DbEvent.execE ++ [DbEvent.closeE]) := by
    simp [enrichSearchResultsSync, h]
  refine ⟨?_, ?_, ?_, ?_, ?_, ?_⟩
  · simp [enrichSearchResultsSync, h]
  · rw [htr]
    simp [List.count_cons, List.count_append, List.count_eq_zero,
      List.mem_replicate]
  · rw [htr]
    simp [List.count_cons, List.count_append, List.count_eq_zero,
      List.mem_replicate]
  · rw [htr, show DbEvent.openE :: (List.replicate n DbEvent.execE ++ [DbEvent.closeE]) =
      (DbEvent.openE :: List.replicate n DbEvent.execE) ++ [DbEvent.closeE] from rfl,
      List.getLast?_concat]
  · exact enrichList_abort parse db items 0 out m n h
  · intro rj
    simp [attachEnrichmentError, Dict.lookup_set_self]

/-- Witness for C8: a two-item batch whose very first statement raises —
the whole list is returned untouched alongside the error, and the
connection trace still ends with the close event. -/
theorem batch_single_connection_abort_witness :
    (enrichSearchResultsSync (fun _ => none) none
        (fun _ => .error "disk I/O error")
        [[("book_id", .num 1)], [("book_id", .num 2)]]).1 =
      .done [[("book_id", .num 1)], [("book_id", .num 2)]]
        (some "disk I/O error") 0 ∧
    (enrichSearchResultsSync (fun _ => none) none
        (fun _ => .error "disk I/O error")
        [[("book_id", .num 1)], [("book_id", .num 2)]]).2.getLast? =
      some DbEvent.closeE :=
  ⟨(batch_single_connection_abort (fun _ => none)
      (fun _ => .error "disk I/O error")
      [[("book_id", .num 1)], [("book_id", .num 2)]]
      [[("book_id", .num 1)], [("book_id", .num 2)]]
      "disk I/O error" 0 rfl).1,
   (batch_single_connection_abort (fun _ => none)
      (fun _ => .error "disk I/O error")
      [[("book_id", .num 1)], [("book_id", .num 2)]]
      [[("book_id", .num 1)], [("book_id", .num 2)]]
      "disk I/O error" 0 rfl).2.2.2.1⟩

theorem likeFuel_succ_cons (f : Nat) (p : Char) (ps s : List Char) :
    likeFuel (f + 1) (p :: ps) s =
      if p = '%' then
        likeFuel f ps s ||
          (match s with
           | [] => false
           | _ :: s' => likeFuel f (p :: ps) s')
      else
        match s with
        | [] => false
        | c :: s' =>
          (decide (p = '_') || decide (lowerAscii p = lowerAscii c)) &&
            likeFuel f ps s' := rfl

theorem likePercentAny : ∀ (v : List Char) (f : Nat), v.length + 1 < f →
    likeFuel f ['%'] v = true := by
  intro v
  induction v with
  | nil =>
    intro f hf
    match f, hf with
    | f' + 2, _ => rfl
  | cons c v' ih =>
    intro f hf
    match f, hf with
    | f' + 1, hf =>
      have h2 : v'.length + 1 < f' := by
        simp only [List.length_cons] at hf
        omega
      rw [likeFuel_succ_cons, if_pos rfl]
      simp [ih f' h2]

theorem likeSelfConcat : ∀ (t v : List Char) (f : Nat),
    2 * t.length + v.length + 1 < f →
    likeFuel f (t ++ ['%']) (t ++ v) = true := by
  intro t
  induction t with
  | nil =>
    intro v f hf
    simpa using likePercentAny v f (by simpa using hf)
  | cons p t' ih =>
    intro v f hf
    match f, hf with
    | f' + 1, hf =>
      have hb : 2 * t'.length + v.length + 1 < f' := by
        simp only [List.length_cons] at hf
        omega
      by_cases hp : p = '%'
      · subst hp
        rw [List.cons_append, List.cons_append, likeFuel_succ_cons, if_pos rfl]
        have hb2 : 2 * t'.length + v.length + 2 < f' := by
          simp only [List.length_cons] at hf
          omega
        match f', hb2 with
        | g + 1, hb2 =>
          have hstep : likeFuel (g + 1) ('%' :: (t' ++ ['%'])) (t' ++ v) = true := by
            rw [likeFuel_succ_cons, if_pos rfl, ih v g (by omega)]
            simp
          simp [hstep]
      · rw [List.cons_append, List.cons_append, likeFuel_succ_cons, if_neg hp]
        simp [ih v f' hb]

theorem likeMain : ∀ (u t v : List Char) (f : Nat),
    u.length + 2 * t.length + v.length + 2 < f →
    likeFuel f ('%' :: (t ++ ['%'])) (u ++ (t ++ v)) = true := by
  intro u
  induction u with
  | nil =>
    intro t v f hf
    match f, hf with
    | g + 1, hf =>
      rw [likeFuel_succ_cons, if_pos rfl, List.nil_append,
        likeSelfConcat t v g (by simp only [List.length_nil] at hf; omega)]
      simp
  | cons c u' ih =>
    intro t v f hf
    match f, hf with
    | g + 1, hf =>
      have hb : u'.length + 2 * t.length + v.length + 2 < g := by
        simp only [List.length_cons] at hf
        omega
      rw [likeFuel_succ_cons, if_pos rfl, List.cons_append]
      simp [ih t v g hb]

theorem startsWith_split : ∀ (needle s : List Char),
    startsWithChars needle s = true → ∃ v, s = needle ++ v := by
  intro needle
  induction needle with
  | nil => intro s _; exact ⟨s, rfl⟩
  | cons a as ih =>
    intro s h
    cases s with
    | nil => simp [startsWithChars] at h
    | cons b bs =>
      simp only [startsWithChars, Bool.and_eq_true, decide_eq_true_eq] at h
      obtain ⟨rfl, h2⟩ := h
      obtain ⟨v, rfl⟩ := ih bs h2
      exact ⟨v, rfl⟩

theorem occurs_split : ∀ (needle hay : List Char),
    occursChars needle hay = true → ∃ u v, hay = u ++ (needle ++ v) := by
  intro needle hay
  induction hay with
  | nil =>
    intro h
    simp only [occursChars, List.isEmpty_iff] at h
    exact ⟨[], [], by simp [h]⟩
  | cons c cs ih =>
    intro h
    simp only [occursChars, Bool.or_eq_true] at h
    rcases h with h | h
    · obtain ⟨v, hv⟩ := startsWith_split needle (c :: cs) h
      exact ⟨[], v, by simp [hv]⟩
    · obtain ⟨u, v, huv⟩ := ih h
      exact ⟨c :: u, v, by simp [huv]⟩

theorem substring_implies_like (needle hay : String)
    (h : occursInStr needle hay = true) :
    sqliteLike ("%" ++ needle ++ "%") hay = true := by
  obtain ⟨u, v, hsplit⟩ := occurs_split needle.toList hay.toList h
  have hpat : ("%" ++ needle ++ "%").toList = '%' :: (needle.toList ++ ['%']) := by
    simp [String.toList, String.data_append]
  have hplen : ("%" ++ needle ++ "%").length = ("%" ++ needle ++ "%").toList.length :=
    rfl
  have hnlen : needle.length = needle.toList.length := rfl
  have hhlen : hay.length = hay.toList.length := rfl
  have hlen2 : hay.toList.length = u.length + (needle.toList.length + v.length) := by
    rw [hsplit]
    simp
  unfold sqliteLike
  rw [hpat, hsplit]
  refine likeMain u needle.toList v _ ?_
  rw [hplen, hpat]
  simp only [List.length_cons, List.length_append, List.length_singleton]
  omega

/-- C9 counterexample: with the single category row `(1, "Ali")`, the input
`"ali"` makes the code return `category_ids = "1"` (SQLite `LIKE` is
case-insensitive on ASCII), although `"ali"` does not occur anywhere inside
the stored name `"Ali"` — refuting "contributes its id exactly when the
supplied string occurs anywhere inside the stored name". -/
theorem filter_like_counterexample :
    getFilterIds [(1, "Ali")] [] (some "ali") none =
      [("category_ids", .str "1"), ("author_ids", .null)] ∧
    occursInStr "ali" "Ali" = false :=
  ⟨rfl, rfl⟩

/-- C9 (amended): `get_filter_ids` matching is SQLite `LIKE` matching of
`%<input>%` against the stored name — a superset of literal substring
occurrence (case-insensitive on ASCII letters, with `%`/`_` in the input
acting as wildcards): a row contributes its id exactly when the pattern
LIKE-matches its name; the ids of all matching rows are comma-joined in row
order; and when neither filter matches any row the `message` dict is
returned instead. -/
theorem filterIds_like (cats authors : List (Int × String)) (c a : String)
    (hc : c ≠ "") (ha : a ≠ "") :
    (likeRows cats c ≠ [] →
      (getFilterIds cats authors (some c) (some a)).lookup "category_ids" =
        some (.str (joinIds (likeRows cats c)))) ∧
    (likeRows authors a ≠ [] →
      (getFilterIds cats authors (some c) (some a)).lookup "author_ids" =
        some (.str (joinIds (likeRows authors a)))) ∧
    (likeRows cats c = [] → likeRows authors a = [] →
      getFilterIds cats authors (some c) (some a) =
        [("message",
          .str "Tidak ada ID yang ditemukan untuk nama kategori atau penulis yang diberikan.")]) ∧
    (∀ r, r ∈ likeRows cats c ↔
      r ∈ cats ∧ sqliteLike ("%" ++ c ++ "%") r.2 = true) ∧
    (∀ needle hayName, occursInStr needle hayName = true →
      sqliteLike ("%" ++ needle ++ "%") hayName = true) := by
  have hc' : (c != "") = true := by simp [hc]
  have ha' : (a != "") = true := by simp [ha]
  refine ⟨?_, ?_, ?_, ?_, fun needle hayName h => substring_implies_like needle hayName h⟩
  · intro h1
    by_cases h2 : likeRows authors a = []
    · simp [getFilterIds, hc', ha', h1, h2, Dict.lookup_set_self]
    · simp [getFilterIds, hc', ha', h1, h2,
        Dict.lookup_set_ne _ _ (by decide : "category_ids" ≠ "author_ids"),
        Dict.lookup_set_self]
  · intro h2
    by_cases h1 : likeRows cats c = []
    · simp [getFilterIds, hc', ha', h1, h2, Dict.lookup_set_self]
    · simp [getFilterIds, hc', ha', h1, h2, Dict.lookup_set_self]
  · intro h1 h2
    simp [getFilterIds, hc', ha', h1, h2]
  · intro r
    simp [likeRows, List.mem_filter]

/-- Witness for C9 (amended) on concrete tables: substring matches
contribute, and the ids come back comma-joined. -/
theorem filterIds_like_witness :
    (getFilterIds [(123, "Ilmu Fiqih"), (9, "Fiqih Syafii")] [(4, "Abu Ali")]
        (some "Fiqih") (some "ali")).lookup "category_ids" =
      some (.str (joinIds (likeRows [(123, "Ilmu Fiqih"), (9, "Fiqih Syafii")] "Fiqih"))) ∧
    (getFilterIds [(123, "Ilmu Fiqih"), (9, "Fiqih Syafii")] [(4, "Abu Ali")]
        (some "Fiqih") (some "ali")).lookup "author_ids" =
      some (.str (joinIds (likeRows [(4, "Abu Ali")] "ali"))) :=
  ⟨(filterIds_like [(123, "Ilmu Fiqih"), (9, "Fiqih Syafii")] [(4, "Abu Ali")]
      "Fiqih" "ali" (by decide) (by decide)).1 (by decide),
   (filterIds_like [(123, "Ilmu Fiqih"), (9, "Fiqih Syafii")] [(4, "Abu Ali")]
      "Fiqih" "ali" (by decide) (by decide)).2.1 (by decide)⟩
